import Mathlib

/-!
# Verification of the flowai-backend webhook / OAuth / callback-scheduler core

Shallow embedding of the idempotent webhook ingestion and deferred-callback
scheduling subsystem of the repository:

* `src/unnamed/part_007` (first document): `OAuthService` — in particular
  `validateToken`;
* `src/middleware/oauthMiddleware.js`: `oauthMiddleware`;
* `src/utils/callIdStorage.js`: `CallIdStorage` (dedup set, `getNextMidnightPST`,
  `getPSTOffset`, `getNthSundayOfMonth`);
* `src/unnamed/part_007` (second document): `CallbackScheduler`
  (`processCallbacks`, `processSingleCallback`);
* `src/unnamed/part_014` (first document), lines 624-1042:
  `router.post("/call/update")`, the call_analyzed webhook handler;
* route registrations in `src/unnamed/part_014` and `src/routes/redoxWebhook.js`.

Modelling conventions:

* JavaScript `undefined`-or-string values are `Option String`; JS truthiness of
  such a value is `jsTruthy`.
* Promise-returning externals (database queries, HTTP calls, the e-mail API)
  are resolved through explicit oracle records; a `false`/`err` entry means the
  corresponding `await` rejects, and the embedding then follows the source's
  `try`/`catch` structure (an uncaught rejection is an explicit error result).
* Instants are integers in milliseconds since the Unix epoch, matching
  JavaScript `Date` arithmetic; for the scheduler window, instants are in
  microseconds (PostgreSQL `timestamp` resolution) so that sub-millisecond
  boundary claims are expressible.
* `Date` methods that use the server's local time zone (`getFullYear`,
  `getDay`, `setHours`) are modelled with the server clock at UTC; the
  UTC-hour-of-day facts proved below depend only on `setUTCHours`, which is
  time-zone independent.
-/

/-- JS truthiness of an `undefined`-or-string value: defined and non-empty. -/
def jsTruthy : Option String → Bool
  | none => false
  | some s => s ≠ ""

/-- A JS value that may be `undefined`, a string, or a boolean (the shape of
`call.call_analysis?.custom_analysis_data?.is_transfer_attempted`). -/
inductive JsVal where
  | undef : JsVal
  | str : String → JsVal
  | bool : Bool → JsVal
deriving DecidableEq, Repr

/-- The source's check `isTransferAttempted === "true" || isTransferAttempted === true`
(part_014 line 918). -/
def isTransferTrue : JsVal → Bool
  | JsVal.str s => s = "true"
  | JsVal.bool b => b
  | JsVal.undef => false

/-- Result of one database round-trip: the resolved value, or a rejection. -/
inductive DbResult (α : Type) where
  | ok : α → DbResult α
  | err : String → DbResult α
deriving DecidableEq, Repr

/-! ## OAuthService.validateToken (part_007, first document, lines 83-125) -/

/-- A row of the `oauth_tokens JOIN oauth_clients` query (`t.*, c.name as client_name`). -/
structure TokenRow where
  access_token : String
  client_id : String
  client_name : String
deriving DecidableEq, Repr

/-- JS `String.prototype.startsWith`. -/
def strStartsWith (s p : String) : Bool :=
  p.toList.isPrefixOf s.toList

/-- A whitespace character as trimmed by JS `String.prototype.trim`. -/
def jsIsWs (c : Char) : Bool :=
  c = ' ' ∨ c = '\t' ∨ c = '\n' ∨ c = '\r'

/-- JS `String.prototype.trim`. -/
def jsTrim (s : String) : String :=
  String.mk (((s.toList.dropWhile jsIsWs).reverse.dropWhile jsIsWs).reverse)

/-- Hex digit test used by the UUID shape check. -/
def isHexDigit (c : Char) : Bool :=
  (Char.ofNat 48 ≤ c && c ≤ Char.ofNat 57) ||
  (Char.ofNat 97 ≤ c && c ≤ Char.ofNat 102) ||
  (Char.ofNat 65 ≤ c && c ≤ Char.ofNat 70)

/-- The source's UUID regex
`/^[0-9a-f]\x7b8\x7d-[0-9a-f]\x7b4\x7d-[0-9a-f]\x7b4\x7d-[0-9a-f]\x7b4\x7d-[0-9a-f]\x7b12\x7d$/i`:
36 characters, dashes at positions 8, 13, 18 and 23, case-insensitive hex
everywhere else. -/
def uuidFormat (s : String) : Bool :=
  let cs := s.toList
  cs.length = 36 &&
  (List.range 36).all (fun i =>
    let c := cs.getD i ' '
    if i = 8 ∨ i = 13 ∨ i = 18 ∨ i = 23 then c = '-' else isHexDigit c)

/-- `OAuthService.validateToken` (part_007 lines 83-125).  The whole body is one
`try`; `lookup` is the `SELECT ... WHERE access_token = $1 AND expires_at > NOW()`
round-trip (`ok none` = no non-expired row), `upd` is the
`UPDATE oauth_tokens SET last_used_at = NOW()` round-trip.  The `catch` block
logs and `return null` (fail closed), so a rejection of either round-trip
yields `ok none`; the function itself never rejects, hence the `Except` layer
never carries `error`. -/
def validateToken (token : String) (lookup : DbResult (Option TokenRow))
    (upd : DbResult Unit) : Except String (Option TokenRow) :=
  if ¬ uuidFormat token then Except.ok none
  else
    match lookup with
    | DbResult.err _ => Except.ok none
    | DbResult.ok none => Except.ok none
    | DbResult.ok (some row) =>
      match upd with
      | DbResult.err _ => Except.ok none
      | DbResult.ok _ => Except.ok (some row)

/-! ## oauthMiddleware (src/middleware/oauthMiddleware.js) -/

/-- Outcome of the OAuth middleware on one request:
a 401 with the given `error` code, the 503 `temporarily_unavailable` response
from the middleware's own `catch`, or `next()` with `req.oauthClient` set. -/
inductive MwOutcome where
  | unauthorized : String → MwOutcome
  | unavailable : MwOutcome
  | authorized : TokenRow → MwOutcome
deriving DecidableEq, Repr

/-- `oauthMiddleware` (oauthMiddleware.js lines 10-99).  `authHeader` is
`req.headers.authorization`.  The middleware's `catch` (line 85) maps an
exception escaping the body to 503 `temporarily_unavailable`; in the source the
only awaited call is `oauthService.validateToken`, which resolves on every
path, so that branch is reachable only through the `Except.error` case that
`validateToken` never produces. -/
def oauthMiddleware (authHeader : Option String)
    (lookup : DbResult (Option TokenRow)) (upd : DbResult Unit) : MwOutcome :=
  match authHeader with
  | none => MwOutcome.unauthorized "missing_token"
  | some h =>
    if ¬ strStartsWith h "Bearer " then MwOutcome.unauthorized "invalid_request"
    else if String.mk (h.toList.drop 7) = "" ∨
        jsTrim (String.mk (h.toList.drop 7)) = "" then
      MwOutcome.unauthorized "invalid_token"
    else
      match validateToken (String.mk (h.toList.drop 7)) lookup upd with
      | Except.error _ => MwOutcome.unavailable
      | Except.ok none => MwOutcome.unauthorized "invalid_token"
      | Except.ok (some row) => MwOutcome.authorized row

/-! ## Route registrations (part_014 first document; src/routes/redoxWebhook.js)

`router.post("/call/update", async (req, res, next) => ...)` (part_014 line
624) registers the call_analyzed handler with no middleware in front of it,
while `router.post('/webhook/scheduling', oauthMiddleware, async (req, res) =>
...)` (redoxWebhook.js line 53) puts `oauthMiddleware` in front of the
scheduling-webhook handler.  A chain is the list of middlewares a request must
pass before the route handler body runs. -/

/-- Middleware that can appear in front of a route handler. -/
inductive RouteMw where
  | oauth : RouteMw
deriving DecidableEq, Repr

/-- Middleware chain of `POST /call/update` (part_014 line 624): empty. -/
def callUpdateChain : List RouteMw := []

/-- Middleware chain of `POST /webhook/scheduling` (redoxWebhook.js line 53). -/
def schedulingChain : List RouteMw := [RouteMw.oauth]

/-- A request reaches the route handler body iff every middleware of the chain
calls `next()`. -/
def chainAdmits (chain : List RouteMw) (authHeader : Option String)
    (lookup : DbResult (Option TokenRow)) (upd : DbResult Unit) : Bool :=
  chain.all (fun mw =>
    match mw with
    | RouteMw.oauth =>
      match oauthMiddleware authHeader lookup upd with
      | MwOutcome.authorized _ => true
      | _ => false)

/-! ## CallIdStorage (src/utils/callIdStorage.js) -/

/-- `CallIdStorage.hasBeenProcessed` (callIdStorage.js lines 14-16): membership
in the in-memory set, modelled as a list of call ids. -/
def hasBeenProcessed (store : List String) (callId : String) : Bool :=
  store.contains callId

/-- `CallIdStorage.markAsProcessed` (callIdStorage.js lines 22-28): insertion
into the in-memory set. -/
def markAsProcessed (store : List String) (callId : String) : List String :=
  callId :: store

/-- Milliseconds per day. -/
def msPerDay : Int := 86400000

/-- Milliseconds per hour. -/
def msPerHour : Int := 3600000

/-- Days since 1970-01-01 of the civil date `y-m-d` (`m` is 1-based; `d` may
exceed the month length and is normalised linearly, exactly as JavaScript
`Date` normalises an out-of-range day-of-month). -/
def daysFromCivil (y m d : Int) : Int :=
  let y2 := if m ≤ 2 then y - 1 else y
  let era := Int.fdiv y2 400
  let yoe := y2 - era * 400
  let mp := Int.emod (m + 9) 12
  let doy := Int.fdiv (153 * mp + 2) 5 + d - 1
  let doe := yoe * 365 + Int.fdiv yoe 4 - Int.fdiv yoe 100 + doy
  era * 146097 + doe - 719468

/-- The civil year containing day number `z` (days since 1970-01-01). -/
def yearOfDay (z : Int) : Int :=
  let z2 := z + 719468
  let era := Int.fdiv z2 146097
  let doe := z2 - era * 146097
  let yoe := Int.fdiv (doe - Int.fdiv doe 1460 + Int.fdiv doe 36524 - Int.fdiv doe 146096) 365
  let y := yoe + era * 400
  let doy := doe - (365 * yoe + Int.fdiv yoe 4 - Int.fdiv yoe 100)
  let mp := Int.fdiv (5 * doy + 2) 153
  let m := mp + (if mp < 10 then 3 else -9)
  if m ≤ 2 then y + 1 else y

/-- JS `Date.prototype.getDay` of a day number: 0 = Sunday.  Day 0
(1970-01-01) was a Thursday (= 4). -/
def jsGetDay (z : Int) : Int :=
  Int.emod (z + 4) 7

/-- `Date.prototype.getFullYear` of an instant in milliseconds (server clock
at UTC). -/
def jsGetFullYear (t : Int) : Int :=
  yearOfDay (Int.fdiv t msPerDay)

/-- `CallIdStorage.getNthSundayOfMonth(year, month, n)` (callIdStorage.js
lines 95-106): `month` is 0-based as in JS.  Computes
`new Date(year, month, 1 + (7 - firstDay.getDay()) % 7)` shifted by
`(n - 1) * 7` days, with the time set to 02:00 local (server clock at UTC).
Returns the instant in milliseconds. -/
def getNthSundayOfMonth (year month n : Int) : Int :=
  let firstDow := jsGetDay (daysFromCivil year (month + 1) 1)
  let dayN := 1 + Int.emod (7 - firstDow) 7 + (n - 1) * 7
  daysFromCivil year (month + 1) dayN * msPerDay + 2 * msPerHour

/-- `CallIdStorage.getPSTOffset(date)` (callIdStorage.js lines 72-87):
7 when `marchSecondSunday <= date < novemberFirstSunday` (both boundaries
at 02:00 of the 2nd Sunday of March / 1st Sunday of November of `date`'s
year), 8 otherwise. -/
def getPSTOffset (date : Int) : Int :=
  let year := jsGetFullYear date
  let marchSecondSunday := getNthSundayOfMonth year 2 2
  let novemberFirstSunday := getNthSundayOfMonth year 10 1
  if marchSecondSunday ≤ date ∧ date < novemberFirstSunday then 7 else 8

/-- `CallIdStorage.getNextMidnightPST()` (callIdStorage.js lines 46-65), as a
function of `now`:
`midnightPST.setUTCHours(8 - pstOffset, 0, 0, 0)` keeps the current UTC day
and sets the UTC time of day to `(8 - pstOffset)` hours; if `now >=
midnightPST` one day is added (`setDate(getDate() + 1)`). -/
def getNextMidnightPST (now : Int) : Int :=
  let pstOffset := getPSTOffset now
  let midnightPST := Int.fdiv now msPerDay * msPerDay + (8 - pstOffset) * msPerHour
  if now ≥ midnightPST then midnightPST + msPerDay else midnightPST

/-- The static table of known agent callback numbers: `+16018846979` is the
scheduling agent, `+14088728200` the intake agent.  It appears both as
`agentNumbers` in the webhook handler (part_014 lines 896) and in the
scheduler's dispatch (part_007 second document, lines 341-356). -/
def knownAgentNumbers : List String := ["+16018846979", "+14088728200"]

/-! ## The call_analyzed webhook handler (part_014 first document, lines 624-1042) -/

/-- `call.retell_llm_dynamic_variables` fields the handler reads. -/
structure DynVars where
  patient_id : Option String
  patient_email : Option String
  access_token : Option String
deriving DecidableEq, Repr

/-- `call.call_analysis.custom_analysis_data` fields the handler reads. -/
structure CustomAnalysisData where
  patient_intake_details : Option String
  is_transfer_attempted : JsVal
  scheduled_callback_time : Option String
deriving DecidableEq, Repr

/-- `call.call_analysis` as used by the handler; only the presence of the
object and of `custom_analysis_data` drives control flow (`user_sentiment`
and `call_successful` are merely read, which cannot throw once the object
exists). -/
structure CallAnalysis where
  custom_analysis_data : Option CustomAnalysisData
deriving DecidableEq, Repr

/-- The `call` object of the webhook payload (fields the handler reads). -/
structure CallData where
  call_id : Option String
  agent_id : Option String
  to_number : Option String
  from_number : Option String
  retell_llm_dynamic_variables : Option DynVars
  call_analysis : Option CallAnalysis
deriving DecidableEq, Repr

/-- The request body `{ event, call }`. -/
structure WebhookReq where
  event : Option String
  call : Option CallData
deriving DecidableEq, Repr

/-- Externally observable actions of one handler run, in program order.
`insertScheduledCallback`'s final flag records whether the `INSERT` round-trip
resolved (the handler swallows its rejection, part_014 lines 996-1002). -/
inductive WebhookEff where
  | emailSend : Option String → WebhookEff
  | dbBegin : WebhookEff
  | dbRollback : WebhookEff
  | dbCommit : WebhookEff
  | insertCalls : String → WebhookEff
  | selectAgents : Option String → WebhookEff
  | docCreate : Bool → String → WebhookEff
  | insertScheduledCallback : String → String → String → Bool → WebhookEff
deriving DecidableEq, Repr

/-- Resolution of the handler's awaited externals.  `emailOk`:
`resend.emails.send` resolves (its `error` field is ignored by the source);
`insertCallsOk` / `selectAgentsOk`: the two queries inside the transaction;
`tokenFetchOk`: `authService.getAccessToken()`; `insertCallbackOk`: the
`INSERT INTO scheduled_callbacks` round-trip.  The two
`DocumentReference/$documentreference-create` requests have no control-flow
effect beyond their own `try` (both rejections are swallowed), so no flag is
needed for them. -/
structure WebhookOracle where
  emailOk : Bool
  insertCallsOk : Bool
  selectAgentsOk : Bool
  tokenFetchOk : Bool
  insertCallbackOk : Bool
deriving DecidableEq, Repr

/-- HTTP outcome of one handler run.  `err500db` is the inner `catch (dbError)`
(rollback + 500); `err500` is the outer `catch` forwarding to the error
handler via `next(error)`. -/
inductive WebhookRes where
  | okNotStored : Option String → WebhookRes
  | badRequestMissingCall : WebhookRes
  | okAlreadyProcessed : String → WebhookRes
  | okProcessed : String → WebhookRes
  | err500db : WebhookRes
  | err500 : WebhookRes
deriving DecidableEq, Repr

/-- Result of one handler run: response, effect trace, dedup store after. -/
structure HandlerOut where
  res : WebhookRes
  effs : List WebhookEff
  store : List String
deriving DecidableEq, Repr

/-- Whether an access token is available at a `DocumentReference` creation
site: `call.retell_llm_dynamic_variables?.access_token ||
(await authService.getAccessToken())` (part_014 lines 813-815 and 921-923);
the fetch may reject, which the surrounding doc-creation `try` swallows. -/
def tokenAvailable (dv : DynVars) (o : WebhookOracle) : Bool :=
  jsTruthy dv.access_token || o.tokenFetchOk

/-- Effects of the patient-intake `DocumentReference` section (part_014 lines
787-890): runs when `patient_intake_details` and `patient_id` are truthy and
the details are not blank after trimming; any exception inside it is caught
and swallowed (`docError`, line 880). -/
def intakeEffs (ca : Option CallAnalysis) (dv : DynVars) (o : WebhookOracle) :
    List WebhookEff :=
  match dv.patient_id,
      (ca.bind (fun a => a.custom_analysis_data)).bind
        (fun c => c.patient_intake_details) with
  | some pid, some s =>
    if s = "" ∨ pid = "" then []
    else if jsTrim s = "" then []
    else if tokenAvailable dv o then [WebhookEff.docCreate false pid]
    else []
  | _, _ => []

/-- The agent-callback-number derivation of the webhook handler (part_014
lines 896-904): `to_number` if it is a known agent number, else `from_number`
if that is, else `null` (`agentNumbers.includes(undefined)` is `false`). -/
def agentCallbackNumberOf (call : CallData) : Option String :=
  match call.to_number with
  | some t =>
    if knownAgentNumbers.contains t then some t
    else
      match call.from_number with
      | some f => if knownAgentNumbers.contains f then some f else none
      | none => none
  | none =>
    match call.from_number with
    | some f => if knownAgentNumbers.contains f then some f else none
    | none => none

/-- `is_transfer_attempted` as read through the optional chain
`call.call_analysis?.custom_analysis_data?.is_transfer_attempted`. -/
def transferFlagOf (ca : Option CallAnalysis) : JsVal :=
  match ca.bind (fun a => a.custom_analysis_data) with
  | none => JsVal.undef
  | some c => c.is_transfer_attempted

/-- Effects of the transfer-attempt / scheduled-callback section (part_014
lines 890-1002).  Runs only when `scheduled_callback_time` and `patient_id`
are truthy and an agent callback number can be derived (otherwise the section
only logs).  With `is_transfer_attempted === "true" || === true` a transfer
audit `DocumentReference` is attempted (exceptions swallowed); otherwise one
row is inserted into `scheduled_callbacks` with status `pending` (a rejection
of that `INSERT` is caught and swallowed, lines 996-1002). -/
def callbackCore (ca : Option CallAnalysis) (call : CallData) (dv : DynVars)
    (o : WebhookOracle) (pid sct : String) : List WebhookEff :=
  if sct = "" ∨ pid = "" then []
  else
    match agentCallbackNumberOf call with
    | none => []
    | some num =>
      if isTransferTrue (transferFlagOf ca) then
        if tokenAvailable dv o then [WebhookEff.docCreate true pid] else []
      else
        [WebhookEff.insertScheduledCallback pid num sct o.insertCallbackOk]

/-- The transfer/callback section's effects as a function of the optional
chains: the section body is `callbackCore` and runs only when both
`patient_id` and `scheduled_callback_time` are present. -/
def callbackEffs (ca : Option CallAnalysis) (call : CallData) (dv : DynVars)
    (o : WebhookOracle) : List WebhookEff :=
  match dv.patient_id with
  | none => []
  | some pid =>
    match (ca.bind (fun a => a.custom_analysis_data)).bind
        (fun c => c.scheduled_callback_time) with
    | none => []
    | some sct => callbackCore ca call dv o pid sct

/-- The `POST /call/update` handler body (part_014 lines 624-1042).

Control flow, in source order: the `event !== "call_analyzed"` early return;
the read of `call.retell_llm_dynamic_variables.patient_email` (a `TypeError`
when `call` or the variables object is `undefined`, caught by the outer
`catch` → `next(error)`); the `resend.emails.send` await; the
`!call || !call.call_id` 400 check; then the transactional block: `BEGIN`,
the `callIdStorage.hasBeenProcessed` dedup check (on hit: `ROLLBACK` and the
"Call already processed" response), `markAsProcessed`, `INSERT INTO calls`,
`SELECT ... FROM agents`, the intake-document section, the
transfer/callback section, `COMMIT`, and finally a success log that reads
`call.call_analysis.user_sentiment` without optional chaining — a `TypeError`
when `call_analysis` is `undefined`, caught by the inner `catch (dbError)`
(a post-commit `ROLLBACK` plus a 500). -/
def handleCallUpdate (req : WebhookReq) (store : List String)
    (o : WebhookOracle) : HandlerOut :=
  if req.event ≠ some "call_analyzed" then
    ⟨WebhookRes.okNotStored req.event, [], store⟩
  else
    match req.call with
    | none => ⟨WebhookRes.err500, [], store⟩
    | some call =>
      match call.retell_llm_dynamic_variables with
      | none => ⟨WebhookRes.err500, [], store⟩
      | some dv =>
        let effs0 := [WebhookEff.emailSend dv.patient_email]
        if ¬ o.emailOk then ⟨WebhookRes.err500, effs0, store⟩
        else
          match call.call_id with
          | none => ⟨WebhookRes.badRequestMissingCall, effs0, store⟩
          | some cid =>
            if cid = "" then ⟨WebhookRes.badRequestMissingCall, effs0, store⟩
            else
              let effs1 := effs0 ++ [WebhookEff.dbBegin]
              if hasBeenProcessed store cid then
                ⟨WebhookRes.okAlreadyProcessed cid,
                  effs1 ++ [WebhookEff.dbRollback], store⟩
              else
                let store1 := markAsProcessed store cid
                let effs2 := effs1 ++ [WebhookEff.insertCalls cid]
                if ¬ o.insertCallsOk then
                  ⟨WebhookRes.err500db, effs2 ++ [WebhookEff.dbRollback], store1⟩
                else
                  let effs3 := effs2 ++ [WebhookEff.selectAgents call.agent_id]
                  if ¬ o.selectAgentsOk then
                    ⟨WebhookRes.err500db, effs3 ++ [WebhookEff.dbRollback], store1⟩
                  else
                    let effs4 := effs3 ++ intakeEffs call.call_analysis dv o
                    let effs5 := effs4 ++ callbackEffs call.call_analysis call dv o
                    let effs6 := effs5 ++ [WebhookEff.dbCommit]
                    match call.call_analysis with
                    | none =>
                      ⟨WebhookRes.err500db, effs6 ++ [WebhookEff.dbRollback], store1⟩
                    | some _ => ⟨WebhookRes.okProcessed cid, effs6, store1⟩

/-! ## Committed-transaction semantics for the handler's effect trace

`BEGIN` / `COMMIT` / `ROLLBACK` bracket the handler's writes; a
`scheduled_callbacks` insert becomes a durable row only if its `INSERT`
resolved and the enclosing transaction commits.  A `ROLLBACK` outside a
transaction (the post-commit rollback path) is a no-op. -/

/-- Accumulator of the transaction machine. -/
structure TxAcc where
  committed : List (String × String × String)
  pending : List (String × String × String)
  inTx : Bool
deriving DecidableEq, Repr

/-- One step of the transaction machine over a handler effect. -/
def commitStep (acc : TxAcc) (e : WebhookEff) : TxAcc :=
  match e with
  | WebhookEff.dbBegin => ⟨acc.committed, [], true⟩
  | WebhookEff.dbRollback => ⟨acc.committed, [], false⟩
  | WebhookEff.dbCommit => ⟨acc.committed ++ acc.pending, [], false⟩
  | WebhookEff.insertScheduledCallback p n t ok =>
    if ok then
      if acc.inTx then ⟨acc.committed, acc.pending ++ [(p, n, t)], true⟩
      else ⟨acc.committed ++ [(p, n, t)], acc.pending, false⟩
    else acc
  | _ => acc

/-- `scheduled_callbacks` rows durably inserted by an effect trace. -/
def committedCallbacks (effs : List WebhookEff) : List (String × String × String) :=
  (effs.foldl commitStep ⟨[], [], false⟩).committed

/-- Whether a handler effect is a database write statement (the reads,
transaction control, e-mail and external HTTP calls are not). -/
def isDbWrite : WebhookEff → Bool
  | WebhookEff.insertCalls _ => true
  | WebhookEff.insertScheduledCallback _ _ _ _ => true
  | _ => false

/-! ## CallbackScheduler (part_007, second document) -/

/-- Microseconds per the scheduler interval: `this.intervalMs = 5 * 60 * 1000`
milliseconds (part_007 second document, line 14), at PostgreSQL `timestamp`
resolution. -/
def intervalUs : Int := 5 * 60 * 1000 * 1000

/-- `scheduled_callbacks.status` values. -/
inductive CbStatus where
  | pending : CbStatus
  | completed : CbStatus
  | failed : CbStatus
deriving DecidableEq, Repr

/-- A `scheduled_callbacks` row as read by the scheduler query
(`SELECT id, patient_id, agent_callback_number, scheduled_time`);
`scheduled_time` in microseconds since the epoch. -/
structure CallbackRow where
  id : Nat
  patient_id : String
  agent_callback_number : String
  scheduled_time : Int
  status : CbStatus
deriving DecidableEq, Repr

/-- Ordering used by `ORDER BY scheduled_time ASC`. -/
def rowLe (a b : CallbackRow) : Prop :=
  a.scheduled_time ≤ b.scheduled_time

instance : DecidableRel rowLe := fun a b =>
  inferInstanceAs (Decidable (a.scheduled_time ≤ b.scheduled_time))

instance : IsTotal CallbackRow rowLe :=
  ⟨fun a b => Int.le_total a.scheduled_time b.scheduled_time⟩

instance : IsTrans CallbackRow rowLe :=
  ⟨fun _ _ _ h1 h2 => le_trans h1 h2⟩

/-- The scheduler's selection query (part_007 second document, lines 210-228):
`WHERE status = 'pending' AND scheduled_time >= $1 AND scheduled_time < $2
ORDER BY scheduled_time ASC` with `$1 = now` and
`$2 = now + this.intervalMs`. -/
def selectPendingInWindow (now : Int) (rows : List CallbackRow) :
    List CallbackRow :=
  List.insertionSort rowLe
    (rows.filter (fun r =>
      r.status = CbStatus.pending ∧
      now ≤ r.scheduled_time ∧ r.scheduled_time < now + intervalUs))

/-- Resolution of the externals awaited while processing one row
(part_007 second document, lines 257-390).  `tokenOk`:
`authService.getAccessToken()`; `patientFound`: the `GET /Patient/:id` request
resolves with a body carrying an `id`; `phonePresent`: the transformed patient
has a phone number; `apptOk`: the appointment search resolves — its rejection
is caught and only degrades the call variables (lines 300-306), so it has no
control-flow effect; `dispatchOk`: the Retell `create...Call` request;
`completeUpdateOk` / `failUpdateOk`: the two `UPDATE scheduled_callbacks`
round-trips. -/
structure RowOutcome where
  tokenOk : Bool
  patientFound : Bool
  phonePresent : Bool
  apptOk : Bool
  dispatchOk : Bool
  completeUpdateOk : Bool
  failUpdateOk : Bool
deriving DecidableEq, Repr

/-- The first exception raised inside the `try` of `processSingleCallback`
before the status update, if any, with its message; follows source order:
token fetch, patient fetch, phone check, (appointment search — swallowed),
agent-number dispatch, Retell call. -/
def rowFailure (row : CallbackRow) (o : RowOutcome) : Option String :=
  if ¬ o.tokenOk then some "access token error"
  else if ¬ o.patientFound then some ("Patient not found: " ++ row.patient_id)
  else if ¬ o.phonePresent then
    some ("Patient phone number not found for patient: " ++ row.patient_id)
  else if ¬ knownAgentNumbers.contains row.agent_callback_number then
    some ("Unknown agent callback number: " ++ row.agent_callback_number)
  else if ¬ o.dispatchOk then some "dispatch error"
  else none

/-- Status updates written by the scheduler. -/
inductive SchedEff where
  | updatedCompleted : Nat → SchedEff
  | updatedFailed : Nat → String → SchedEff
deriving DecidableEq, Repr

/-- Row id targeted by a scheduler effect. -/
def SchedEff.rowId : SchedEff → Nat
  | SchedEff.updatedCompleted i => i
  | SchedEff.updatedFailed i _ => i

/-- `CallbackScheduler.processSingleCallback` (part_007 second document, lines
257-390): on success, `UPDATE ... SET status = 'completed', processed_at =
CURRENT_TIMESTAMP`; on any exception, the `catch` runs `UPDATE ... SET status
= 'failed', processed_at = CURRENT_TIMESTAMP, error_message = $2`.  A
rejection of the success update is itself caught by the same `catch`; a
rejection of the failure update escapes the method (`Except.error`). -/
def processSingleCallback (row : CallbackRow) (o : RowOutcome) :
    Except String (List SchedEff) :=
  match rowFailure row o with
  | none =>
    if o.completeUpdateOk then Except.ok [SchedEff.updatedCompleted row.id]
    else if o.failUpdateOk then
      Except.ok [SchedEff.updatedFailed row.id "completed update error"]
    else Except.error "completed update error"
  | some msg =>
    if o.failUpdateOk then Except.ok [SchedEff.updatedFailed row.id msg]
    else Except.error msg

/-- The `for (const callback of result.rows) await this.processSingleCallback`
loop (part_007 second document, lines 237-240): sequential; an exception
escaping `processSingleCallback` aborts the loop (it is caught by the
`catch` of `processCallbacks`, so later rows of the batch are skipped). -/
def runRows : List CallbackRow → (Nat → RowOutcome) → List SchedEff
  | [], _ => []
  | r :: rest, o =>
    match processSingleCallback r (o r.id) with
    | Except.ok effs => effs ++ runRows rest o
    | Except.error _ => []

/-- Result of one `processCallbacks` invocation: the `isProcessing` flag after
it returns, the status updates performed, and whether the firing was skipped
by the guard. -/
structure SchedResult where
  flag : Bool
  effs : List SchedEff
  skipped : Bool
deriving DecidableEq, Repr

/-- `CallbackScheduler.processCallbacks` (part_007 second document, lines
200-249).  `isProcessing` is the in-process guard flag at entry; `q` is the
window query round-trip over the table contents (the `WHERE`/`ORDER BY` of
the query is `selectPendingInWindow`).  The body is
`try { ... } catch { log } finally { this.isProcessing = false }`: a query
rejection or a rejection escaping the row loop is caught, and the flag is
cleared on every path that acquired it. -/
def processCallbacks (isProcessing : Bool) (now : Int)
    (q : DbResult (List CallbackRow)) (o : Nat → RowOutcome) : SchedResult :=
  if isProcessing then ⟨true, [], true⟩
  else
    match q with
    | DbResult.err _ => ⟨false, [], false⟩
    | DbResult.ok rows => ⟨false, runRows (selectPendingInWindow now rows) o, false⟩

/-- Effects that do not change the transaction machine's accumulator
(everything except transaction control and the `scheduled_callbacks`
insert). -/
def txNeutral : WebhookEff → Bool
  | WebhookEff.dbBegin => false
  | WebhookEff.dbRollback => false
  | WebhookEff.dbCommit => false
  | WebhookEff.insertScheduledCallback _ _ _ _ => false
  | _ => true

/-- Whether a handler effect is the `INSERT INTO scheduled_callbacks`
statement. -/
def isInsertCb : WebhookEff → Bool
  | WebhookEff.insertScheduledCallback _ _ _ _ => true
  | _ => false

/-! # Theorems -/

/-! ## Helper lemmas -/

/-- A transaction-neutral effect leaves the transaction accumulator alone. -/
theorem commitStep_neutral (acc : TxAcc) (e : WebhookEff) (h : txNeutral e = true) :
    commitStep acc e = acc := by
  cases e <;> simp_all [txNeutral, commitStep]

/-- Folding the transaction machine over a list of neutral effects is the
identity. -/
theorem foldl_commitStep_neutral (l : List WebhookEff) (acc : TxAcc)
    (h : ∀ e ∈ l, txNeutral e = true) :
    l.foldl commitStep acc = acc := by
  induction l generalizing acc with
  | nil => rfl
  | cons e rest ih =>
    have he : txNeutral e = true := h e (List.mem_cons_self e rest)
    rw [List.foldl_cons, commitStep_neutral acc e he]
    exact ih acc (fun x hx => h x (List.mem_cons_of_mem e hx))

/-- The effect suffix produced by a duplicate delivery (e-mail, `BEGIN`,
`ROLLBACK`) never changes the committed rows. -/
theorem trailer_preserves_committed (acc : TxAcc) (em : Option String) :
    (List.foldl commitStep acc
      [WebhookEff.emailSend em, WebhookEff.dbBegin, WebhookEff.dbRollback]).committed =
    acc.committed := by
  simp [commitStep]

/-- The intake-document section yields either nothing or a single
document-creation effect. -/
theorem intakeEffs_cases (ca : Option CallAnalysis) (dv : DynVars)
    (o : WebhookOracle) :
    intakeEffs ca dv o = [] ∨
    ∃ p, intakeEffs ca dv o = [WebhookEff.docCreate false p] := by
  unfold intakeEffs
  split
  · split
    · exact Or.inl rfl
    · split
      · exact Or.inl rfl
      · split
        · exact Or.inr ⟨_, rfl⟩
        · exact Or.inl rfl
  · exact Or.inl rfl

/-- The intake-document section only ever emits transaction-neutral
effects. -/
theorem intakeEffs_neutral (ca : Option CallAnalysis) (dv : DynVars)
    (o : WebhookOracle) : ∀ e ∈ intakeEffs ca dv o, txNeutral e = true := by
  intro e he
  rcases intakeEffs_cases ca dv o with h | ⟨p, h⟩ <;> rw [h] at he
  · simp at he
  · simp at he
    subst he
    rfl

/-! ## C5 — scheduler window selection -/

/-- C5: a scheduler scan cycle selects exactly the `ScheduledCallback` rows
with `status = 'pending'` and `scheduledTime` in the half-open window
`[now, now + interval)`, ordered by `scheduledTime` ascending; a row with
`scheduledTime` exactly `now` is included, and a row with `scheduledTime` at
or past `now + interval` (even one microsecond past) is excluded. -/
theorem scheduler_window_selection (now : Int) (rows : List CallbackRow) :
    (∀ r : CallbackRow,
      r ∈ selectPendingInWindow now rows ↔
        r ∈ rows ∧ r.status = CbStatus.pending ∧
        now ≤ r.scheduled_time ∧ r.scheduled_time < now + intervalUs) ∧
    List.Sorted rowLe (selectPendingInWindow now rows) ∧
    (∀ r ∈ rows, r.status = CbStatus.pending → r.scheduled_time = now →
      r ∈ selectPendingInWindow now rows) ∧
    (∀ r : CallbackRow, now + intervalUs ≤ r.scheduled_time →
      r ∉ selectPendingInWindow now rows) := by
  have hmem : ∀ r : CallbackRow,
      r ∈ selectPendingInWindow now rows ↔
        r ∈ rows ∧ r.status = CbStatus.pending ∧
        now ≤ r.scheduled_time ∧ r.scheduled_time < now + intervalUs := by
    intro r
    unfold selectPendingInWindow
    rw [List.mem_insertionSort, List.mem_filter]
    simp
  refine ⟨hmem, ?_, ?_, ?_⟩
  · exact List.sorted_insertionSort rowLe _
  · intro r hr hst ht
    exact (hmem r).mpr ⟨hr, hst, le_of_eq ht.symm, by
      rw [ht]
      have : (0 : Int) < intervalUs := by decide
      omega⟩
  · intro r hpast hmem2
    have := ((hmem r).mp hmem2).2.2.2
    omega

/-- C5 witness: with `now = 1000`, a pending row at exactly `1000` is
selected, and a pending row at `1000 + intervalUs` (and one at one
microsecond past the window end) is not. -/
theorem scheduler_window_selection_witness :
    (⟨1, "p1", "+16018846979", 1000, CbStatus.pending⟩ : CallbackRow) ∈
      selectPendingInWindow 1000
        [⟨1, "p1", "+16018846979", 1000, CbStatus.pending⟩,
         ⟨2, "p2", "+14088728200", 1000 + intervalUs, CbStatus.pending⟩,
         ⟨3, "p3", "+14088728200", 1000 + intervalUs + 1, CbStatus.pending⟩] ∧
    (⟨2, "p2", "+14088728200", 1000 + intervalUs, CbStatus.pending⟩ : CallbackRow) ∉
      selectPendingInWindow 1000
        [⟨1, "p1", "+16018846979", 1000, CbStatus.pending⟩,
         ⟨2, "p2", "+14088728200", 1000 + intervalUs, CbStatus.pending⟩,
         ⟨3, "p3", "+14088728200", 1000 + intervalUs + 1, CbStatus.pending⟩] ∧
    (⟨3, "p3", "+14088728200", 1000 + intervalUs + 1, CbStatus.pending⟩ : CallbackRow) ∉
      selectPendingInWindow 1000
        [⟨1, "p1", "+16018846979", 1000, CbStatus.pending⟩,
         ⟨2, "p2", "+14088728200", 1000 + intervalUs, CbStatus.pending⟩,
         ⟨3, "p3", "+14088728200", 1000 + intervalUs + 1, CbStatus.pending⟩] := by
  refine ⟨?_, ?_, ?_⟩
  · exact (scheduler_window_selection 1000 _).2.2.1 _ (by simp) rfl rfl
  · exact (scheduler_window_selection 1000 _).2.2.2 _ (by decide)
  · exact (scheduler_window_selection 1000 _).2.2.2 _ (by decide)

/-! ## C8 — scan-cycle mutual exclusion -/

/-- C8: a `processCallbacks` firing that finds the `isProcessing` flag set
performs no work; an invocation that acquires the flag ends with the flag
cleared on every outcome — query rejection, per-row failures, or full
success — so the guard never remains set after the cycle that holds it
terminates. -/
theorem scheduler_guard_flag (isProcessing : Bool) (now : Int)
    (q : DbResult (List CallbackRow)) (o : Nat → RowOutcome) :
    (isProcessing = true →
      processCallbacks isProcessing now q o =
        ⟨true, [], true⟩) ∧
    (isProcessing = false →
      (processCallbacks isProcessing now q o).flag = false ∧
      (processCallbacks isProcessing now q o).skipped = false) := by
  constructor
  · intro h
    subst h
    rfl
  · intro h
    subst h
    cases q <;> exact ⟨rfl, rfl⟩

/-- C8 witness: at a concrete state — flag set: nothing happens; flag clear
with a rejecting query: the flag is still clear afterwards. -/
theorem scheduler_guard_flag_witness :
    processCallbacks true 0 (DbResult.err "db down") (fun _ => ⟨true, true, true, true, true, true, true⟩) =
      ⟨true, [], true⟩ ∧
    (processCallbacks false 0 (DbResult.err "db down") (fun _ => ⟨true, true, true, true, true, true, true⟩)).flag = false := by
  exact ⟨(scheduler_guard_flag true 0 (DbResult.err "db down") _).1 rfl,
    ((scheduler_guard_flag false 0 (DbResult.err "db down") _).2 rfl).1⟩

/-! ## C9 — the lastUsedAt bump is not fire-and-forget -/

/-- C9 counterexample: a token in valid UUID shape whose non-expired lookup
succeeds, but whose `last_used_at` update rejects: `validateToken` returns
`null` (the update rejection is caught by the function's single `catch`,
which fails closed), not the client info the claim promises. -/
theorem validateToken_update_failure_counterexample :
    validateToken "123e4567-e89b-12d3-a456-426614174000"
      (DbResult.ok (some ⟨"123e4567-e89b-12d3-a456-426614174000", "client-1", "Test Client"⟩))
      (DbResult.err "update timeout") = Except.ok none ∧
    (Except.ok none : Except String (Option TokenRow)) ≠
      Except.ok (some ⟨"123e4567-e89b-12d3-a456-426614174000", "client-1", "Test Client"⟩) := by
  constructor
  · rfl
  · simp

/-- C9 amended: for a token that passes the format check and whose non-expired
lookup returns a row, `validateToken` returns the client info exactly when
the `last_used_at` update succeeds; a rejection of that update is caught by
the function's `catch` and surfaces as `null` (validation fails), so the
update is load-bearing, not fire-and-forget. -/
theorem validateToken_requires_update_success (token : String) (row : TokenRow)
    (upd : DbResult Unit) (hfmt : uuidFormat token = true) :
    validateToken token (DbResult.ok (some row)) upd =
      (match upd with
       | DbResult.ok _ => Except.ok (some row)
       | DbResult.err _ => Except.ok none) := by
  unfold validateToken
  rw [hfmt]
  cases upd <;> simp

/-- C9 witness: the amended statement evaluated at a concrete token, row and
both update outcomes. -/
theorem validateToken_requires_update_success_witness :
    validateToken "123e4567-e89b-12d3-a456-426614174000"
      (DbResult.ok (some ⟨"123e4567-e89b-12d3-a456-426614174000", "c2", "N"⟩))
      (DbResult.ok ()) = Except.ok (some ⟨"123e4567-e89b-12d3-a456-426614174000", "c2", "N"⟩) :=
  validateToken_requires_update_success "123e4567-e89b-12d3-a456-426614174000"
    ⟨"123e4567-e89b-12d3-a456-426614174000", "c2", "N"⟩ (DbResult.ok ()) (by decide)

/-! ## C3 — token validation fails closed, but storage faults surface as 401 -/

/-- C3 counterexample: a well-formed bearer header whose token lookup hits a
storage failure.  `validateToken` catches the rejection and returns `null`,
so the middleware answers 401 `invalid_token` — not the 503
`temporarily_unavailable` the claim promises. -/
theorem storage_failure_yields_401_counterexample :
    oauthMiddleware (some "Bearer 123e4567-e89b-12d3-a456-426614174000")
      (DbResult.err "connection refused") (DbResult.ok ()) =
      MwOutcome.unauthorized "invalid_token" ∧
    MwOutcome.unauthorized "invalid_token" ≠ MwOutcome.unavailable := by
  constructor
  · decide
  · simp

/-- C3 amended: an invalid, expired or malformed token yields a 401, and a
storage-layer failure during validation also yields a 401 `invalid_token`
(the fail-closed `catch` inside `validateToken` converts the rejection to
`null` before the middleware's 503 branch can see it); a storage failure
never results in successful authorization and never reaches the 503
`temporarily_unavailable` response. -/
theorem storage_failure_fails_closed_as_401 (authHeader : Option String)
    (lookup : DbResult (Option TokenRow)) (upd : DbResult Unit) :
    ((∀ row, lookup ≠ DbResult.ok (some row)) →
      ∃ code, oauthMiddleware authHeader lookup upd = MwOutcome.unauthorized code) ∧
    (∀ msg, lookup = DbResult.err msg →
      (∀ row, oauthMiddleware authHeader lookup upd ≠ MwOutcome.authorized row) ∧
      oauthMiddleware authHeader lookup upd ≠ MwOutcome.unavailable ∧
      ∃ code, oauthMiddleware authHeader lookup upd = MwOutcome.unauthorized code) := by
  have key : (∀ row, lookup ≠ DbResult.ok (some row)) →
      ∃ code, oauthMiddleware authHeader lookup upd = MwOutcome.unauthorized code := by
    intro hno
    have hval : ∀ t : String, validateToken t lookup upd = Except.ok none := by
      intro t
      unfold validateToken
      by_cases hf : uuidFormat t = true
      · rw [if_neg (by simp [hf])]
        match lookup, hno with
        | DbResult.err m, _ => rfl
        | DbResult.ok none, _ => rfl
        | DbResult.ok (some row), hno => exact absurd rfl (hno row)
      · rw [if_pos (by simp [hf])]
    unfold oauthMiddleware
    split
    · exact ⟨"missing_token", rfl⟩
    · split
      · exact ⟨"invalid_request", rfl⟩
      · refine ⟨"invalid_token", ?_⟩
        rw [hval]
        split <;> rfl
  constructor
  · exact key
  · intro msg hmsg
    subst hmsg
    have h401 := key (by intro row h; cases h)
    obtain ⟨code, hcode⟩ := h401
    refine ⟨?_, ?_, ⟨code, hcode⟩⟩
    · intro row h
      rw [hcode] at h
      cases h
    · intro h
      rw [hcode] at h
      cases h

/-- C3 witness: the amended statement at a concrete header and a concrete
storage failure. -/
theorem storage_failure_fails_closed_as_401_witness :
    ∃ code, oauthMiddleware (some "Bearer 123e4567-e89b-12d3-a456-426614174000")
      (DbResult.err "connection refused") (DbResult.ok ()) =
      MwOutcome.unauthorized code :=
  ((storage_failure_fails_closed_as_401
    (some "Bearer 123e4567-e89b-12d3-a456-426614174000")
    (DbResult.err "connection refused") (DbResult.ok ())).2
    "connection refused" rfl).2.2

/-! ## C6 — DedupGuard midnight computation -/

/-- C6: the DST range test itself follows the claimed rule, but the computed
"next midnight" instant does not correspond to a 7/8-hour UTC offset.
`getPSTOffset` returns 8 on 2025-01-15 (outside the DST range) and 7 on
2025-06-15 (inside it); yet `setUTCHours(8 - pstOffset, ...)`
(callIdStorage.js line 57) puts the computed instant at UTC hour
`8 - offset` — 00:00 UTC in standard time and 01:00 UTC in DST — where a
midnight at an 8-hour (resp. 7-hour) UTC offset would be at 08:00 UTC
(resp. 07:00 UTC), exactly as the line's own comment
(`8 AM UTC = 12 AM PST`) demands.  Evaluated at
`now = 2025-01-15T12:00:00Z` and `now = 2025-06-15T12:00:00Z`. -/
theorem getNextMidnightPST_utc_hour_bug :
    getPSTOffset (daysFromCivil 2025 1 15 * msPerDay + 12 * msPerHour) = 8 ∧
    Int.emod (getNextMidnightPST (daysFromCivil 2025 1 15 * msPerDay + 12 * msPerHour))
      msPerDay = 0 ∧
    (0 : Int) ≠ 8 * msPerHour ∧
    getPSTOffset (daysFromCivil 2025 6 15 * msPerDay + 12 * msPerHour) = 7 ∧
    Int.emod (getNextMidnightPST (daysFromCivil 2025 6 15 * msPerDay + 12 * msPerHour))
      msPerDay = msPerHour ∧
    (msPerHour : Int) ≠ 7 * msPerHour := by
  refine ⟨?_, ?_, by decide, ?_, ?_, by decide⟩ <;> decide

/-! ## C1 — the call_analyzed webhook is not authenticated -/

/-- C1 counterexample: a request with no `Authorization` header at all is
admitted by the (empty) middleware chain of `POST /call/update` and its body
runs to completion: the dedup check is consulted, `BEGIN` and the
`INSERT INTO calls` write are executed, and the event is fully processed —
all without any token validation. -/
theorem call_update_unauthenticated_counterexample :
    chainAdmits callUpdateChain none (DbResult.err "no lookup happens")
      (DbResult.ok ()) = true ∧
    (handleCallUpdate
      ⟨some "call_analyzed",
       some ⟨some "call-001", some "agent-1", some "+16018846979",
         some "+15550001111",
         some ⟨some "patient-1", some "patient@example.com", some "tok-abc"⟩,
         some ⟨some ⟨none, JsVal.bool false, some "2025-03-09T10:00:00Z"⟩⟩⟩⟩
      [] ⟨true, true, true, true, true⟩).res = WebhookRes.okProcessed "call-001" ∧
    WebhookEff.dbBegin ∈ (handleCallUpdate
      ⟨some "call_analyzed",
       some ⟨some "call-001", some "agent-1", some "+16018846979",
         some "+15550001111",
         some ⟨some "patient-1", some "patient@example.com", some "tok-abc"⟩,
         some ⟨some ⟨none, JsVal.bool false, some "2025-03-09T10:00:00Z"⟩⟩⟩⟩
      [] ⟨true, true, true, true, true⟩).effs ∧
    WebhookEff.insertCalls "call-001" ∈ (handleCallUpdate
      ⟨some "call_analyzed",
       some ⟨some "call-001", some "agent-1", some "+16018846979",
         some "+15550001111",
         some ⟨some "patient-1", some "patient@example.com", some "tok-abc"⟩,
         some ⟨some ⟨none, JsVal.bool false, some "2025-03-09T10:00:00Z"⟩⟩⟩⟩
      [] ⟨true, true, true, true, true⟩).effs := by
  refine ⟨rfl, ?_, ?_, ?_⟩ <;> decide

/-- C1 amended: only the scheduling webhook (`POST /webhook/scheduling`) is
guarded by the OAuth middleware — a request passes its chain exactly when
`oauthMiddleware` authorizes it, and a request with no header never does —
while the call_analyzed handler at `POST /call/update` is registered with no
authentication middleware, so every request (with or without a valid bearer
token) reaches the processor body. -/
theorem only_scheduling_webhook_authenticated (authHeader : Option String)
    (lookup : DbResult (Option TokenRow)) (upd : DbResult Unit) :
    chainAdmits callUpdateChain authHeader lookup upd = true ∧
    (chainAdmits schedulingChain authHeader lookup upd = true →
      ∃ row, oauthMiddleware authHeader lookup upd = MwOutcome.authorized row) ∧
    chainAdmits schedulingChain none lookup upd = false := by
  refine ⟨rfl, ?_, rfl⟩
  intro hpass
  unfold chainAdmits schedulingChain at hpass
  simp only [List.all_cons, List.all_nil, Bool.and_true] at hpass
  match hmw : oauthMiddleware authHeader lookup upd, hpass with
  | MwOutcome.authorized row, _ => exact ⟨row, rfl⟩
  | MwOutcome.unauthorized c, hpass => simp at hpass
  | MwOutcome.unavailable, hpass => simp at hpass

/-- C1 amended witness: at a concrete valid token the scheduling chain admits
the request and the middleware authorizes it. -/
theorem only_scheduling_webhook_authenticated_witness :
    ∃ row, oauthMiddleware (some "Bearer 123e4567-e89b-12d3-a456-426614174000")
      (DbResult.ok (some ⟨"123e4567-e89b-12d3-a456-426614174000", "c9", "W"⟩))
      (DbResult.ok ()) = MwOutcome.authorized row :=
  (only_scheduling_webhook_authenticated
    (some "Bearer 123e4567-e89b-12d3-a456-426614174000")
    (DbResult.ok (some ⟨"123e4567-e89b-12d3-a456-426614174000", "c9", "W"⟩))
    (DbResult.ok ())).2.1 (by decide)

/-! ## C7 — row-level failure isolation in a scan cycle -/

/-- When the status-update writes of every row in the batch resolve, the
sequential row loop produces exactly one status update per row, in order:
a failing row is marked `failed` with its error message and the loop
continues. -/
theorem runRows_isolates (rows : List CallbackRow) (o : Nat → RowOutcome)
    (hupd : ∀ r ∈ rows, (o r.id).completeUpdateOk = true ∧ (o r.id).failUpdateOk = true) :
    (∀ r ∈ rows, ∀ msg, rowFailure r (o r.id) = some msg →
      SchedEff.updatedFailed r.id msg ∈ runRows rows o) ∧
    (∀ r ∈ rows, ∃ e ∈ runRows rows o, e.rowId = r.id) := by
  induction rows with
  | nil => exact ⟨fun r hr => absurd hr (List.not_mem_nil r), fun r hr => absurd hr (List.not_mem_nil r)⟩
  | cons a rest ih =>
    have ha := hupd a (List.mem_cons_self a rest)
    have hrest := ih (fun r hr => hupd r (List.mem_cons_of_mem a hr))
    have hstep : ∃ effs, processSingleCallback a (o a.id) = Except.ok effs ∧
        effs ≠ [] ∧ ∀ e ∈ effs, e.rowId = a.id ∧
        (∀ msg, rowFailure a (o a.id) = some msg → e = SchedEff.updatedFailed a.id msg) := by
      unfold processSingleCallback
      match hf : rowFailure a (o a.id) with
      | none =>
        rw [ha.1]
        refine ⟨[SchedEff.updatedCompleted a.id], rfl, by simp, ?_⟩
        intro e he
        simp at he
        subst he
        exact ⟨rfl, fun msg hmsg => Option.noConfusion hmsg⟩
      | some m =>
        rw [ha.2]
        refine ⟨[SchedEff.updatedFailed a.id m], rfl, by simp, ?_⟩
        intro e he
        simp at he
        subst he
        refine ⟨rfl, ?_⟩
        intro msg hmsg
        cases hmsg
        rfl
    obtain ⟨effs, hok, hne, hprops⟩ := hstep
    have hrun : runRows (a :: rest) o = effs ++ runRows rest o := by
      rw [runRows, hok]
    constructor
    · intro r hr msg hmsg
      rw [hrun]
      rcases List.mem_cons.mp hr with heq | hmem
      · subst heq
        obtain ⟨e, he⟩ := List.exists_mem_of_ne_nil effs hne
        have := (hprops e he).2 msg hmsg
        subst this
        exact List.mem_append_left _ he
      · exact List.mem_append_right _ ((hrest.1) r hmem msg hmsg)
    · intro r hr
      rw [hrun]
      rcases List.mem_cons.mp hr with heq | hmem
      · subst heq
        obtain ⟨e, he⟩ := List.exists_mem_of_ne_nil effs hne
        exact ⟨e, List.mem_append_left _ he, (hprops e he).1⟩
      · obtain ⟨e, he, hid⟩ := (hrest.2) r hmem
        exact ⟨e, List.mem_append_right _ he, hid⟩

/-- C7: in a scan cycle whose per-row status-update writes resolve, every
selected row gets its own terminal update — a row whose processing raises any
exception (access-token failure, patient lookup failure, missing phone,
unknown agent callback number, or dispatch failure) is set to `failed` with
its error message recorded (the `UPDATE` also sets `processed_at`), and every
other row of the batch still receives an update: one row's failure never
aborts the batch. -/
theorem scan_cycle_row_isolation (now : Int) (table : List CallbackRow)
    (o : Nat → RowOutcome)
    (hupd : ∀ r ∈ selectPendingInWindow now table,
      (o r.id).completeUpdateOk = true ∧ (o r.id).failUpdateOk = true) :
    (∀ r ∈ selectPendingInWindow now table, ∀ msg, rowFailure r (o r.id) = some msg →
      SchedEff.updatedFailed r.id msg ∈
        (processCallbacks false now (DbResult.ok table) o).effs) ∧
    (∀ r ∈ selectPendingInWindow now table,
      ∃ e ∈ (processCallbacks false now (DbResult.ok table) o).effs,
        e.rowId = r.id) := by
  have h : (processCallbacks false now (DbResult.ok table) o).effs =
      runRows (selectPendingInWindow now table) o := rfl
  rw [h]
  exact runRows_isolates (selectPendingInWindow now table) o hupd

/-- C7 witness: a two-row batch in which row 1's dispatch fails while row 2
succeeds — row 1 is marked `failed` with the dispatch error message, and row 2
is still processed (its update effect is present). -/
theorem scan_cycle_row_isolation_witness :
    SchedEff.updatedFailed 1 "dispatch error" ∈
      (processCallbacks false 0
        (DbResult.ok
          [⟨1, "p1", "+16018846979", 10, CbStatus.pending⟩,
           ⟨2, "p2", "+14088728200", 20, CbStatus.pending⟩])
        (fun i => if i = 1 then ⟨true, true, true, true, false, true, true⟩
                  else ⟨true, true, true, true, true, true, true⟩)).effs ∧
    (∃ e ∈ (processCallbacks false 0
        (DbResult.ok
          [⟨1, "p1", "+16018846979", 10, CbStatus.pending⟩,
           ⟨2, "p2", "+14088728200", 20, CbStatus.pending⟩])
        (fun i => if i = 1 then ⟨true, true, true, true, false, true, true⟩
                  else ⟨true, true, true, true, true, true, true⟩)).effs,
      e.rowId = 2) := by
  constructor
  · exact (scan_cycle_row_isolation 0 _ _ (by decide)).1
      ⟨1, "p1", "+16018846979", 10, CbStatus.pending⟩ (by decide) "dispatch error" (by decide)
  · exact (scan_cycle_row_isolation 0 _ _ (by decide)).2
      ⟨2, "p2", "+14088728200", 20, CbStatus.pending⟩ (by decide)

/-! ## Evaluation lemmas for the webhook handler -/

/-- Full-path evaluation of the handler: a fresh (not yet deduplicated)
call_analyzed event whose e-mail send and in-transaction queries resolve and
whose `call_analysis` object is present runs to `COMMIT` and the 200
response, marks the call id processed, and produces the effect trace in
source order. -/
theorem handleCallUpdate_fresh (req : WebhookReq) (call : CallData)
    (dv : DynVars) (ca : CallAnalysis) (cid : String) (store : List String)
    (o : WebhookOracle)
    (hev : req.event = some "call_analyzed") (hcall : req.call = some call)
    (hdv : call.retell_llm_dynamic_variables = some dv)
    (hcid : call.call_id = some cid) (hne : cid ≠ "")
    (hproc : hasBeenProcessed store cid = false)
    (hem : o.emailOk = true) (hic : o.insertCallsOk = true)
    (hsa : o.selectAgentsOk = true)
    (hca : call.call_analysis = some ca) :
    handleCallUpdate req store o =
      ⟨WebhookRes.okProcessed cid,
       WebhookEff.emailSend dv.patient_email :: WebhookEff.dbBegin ::
         WebhookEff.insertCalls cid :: WebhookEff.selectAgents call.agent_id ::
         (intakeEffs (some ca) dv o ++ callbackEffs (some ca) call dv o ++
          [WebhookEff.dbCommit]),
       cid :: store⟩ := by
  unfold handleCallUpdate
  simp [hev, hcall, hdv, hcid, hca, hne, hproc, hem, hic, hsa, markAsProcessed]

/-- Duplicate-delivery evaluation of the handler: when the call id is already
in the dedup set, the handler sends the e-mail, opens the transaction, hits
the dedup check, rolls back, and answers "Call already processed"; the store
is unchanged and no write statement is executed. -/
theorem handleCallUpdate_dup (req : WebhookReq) (call : CallData)
    (dv : DynVars) (cid : String) (store : List String) (o : WebhookOracle)
    (hev : req.event = some "call_analyzed") (hcall : req.call = some call)
    (hdv : call.retell_llm_dynamic_variables = some dv)
    (hcid : call.call_id = some cid) (hne : cid ≠ "")
    (hproc : hasBeenProcessed store cid = true)
    (hem : o.emailOk = true) :
    handleCallUpdate req store o =
      ⟨WebhookRes.okAlreadyProcessed cid,
       [WebhookEff.emailSend dv.patient_email, WebhookEff.dbBegin,
        WebhookEff.dbRollback],
       store⟩ := by
  unfold handleCallUpdate
  simp [hev, hcall, hdv, hcid, hne, hproc, hem]

/-! ## C10 — the confirmation e-mail is sent before validation and dedup -/

/-- C10: for every request whose `event` is `"call_analyzed"` (with the `call`
object and its dynamic variables present, which any request surviving the
`patient_email` read has), the very first effect of the handler is the
appointment-confirmation e-mail send; consequently a request with no
`call.call_id` still triggers the e-mail before being rejected with 400, and
a duplicate delivery of an already-processed call id still triggers the
e-mail before being answered "Call already processed" with no writes. -/
theorem email_sent_before_validation_and_dedup (req : WebhookReq)
    (call : CallData) (dv : DynVars) (store : List String) (o : WebhookOracle)
    (hev : req.event = some "call_analyzed") (hcall : req.call = some call)
    (hdv : call.retell_llm_dynamic_variables = some dv) :
    (handleCallUpdate req store o).effs.head? =
      some (WebhookEff.emailSend dv.patient_email) ∧
    (o.emailOk = true → jsTruthy call.call_id = false →
      (handleCallUpdate req store o).res = WebhookRes.badRequestMissingCall ∧
      (handleCallUpdate req store o).effs = [WebhookEff.emailSend dv.patient_email]) ∧
    (o.emailOk = true → ∀ cid, call.call_id = some cid → cid ≠ "" →
      hasBeenProcessed store cid = true →
      (handleCallUpdate req store o).res = WebhookRes.okAlreadyProcessed cid ∧
      (handleCallUpdate req store o).effs =
        [WebhookEff.emailSend dv.patient_email, WebhookEff.dbBegin,
         WebhookEff.dbRollback]) := by
  refine ⟨?_, ?_, ?_⟩
  · unfold handleCallUpdate
    simp only [hev, hcall, hdv, ne_eq, not_true_eq_false, if_false, ite_false]
    by_cases hem : o.emailOk = true
    · simp only [hem, not_true_eq_false, if_false, ite_false]
      match call.call_id with
      | none => simp
      | some cid =>
        by_cases hce : cid = ""
        · simp [hce]
        · simp only [hce, if_false, ite_false]
          by_cases hproc : hasBeenProcessed store cid = true
          · simp [hproc]
          · simp only [hproc, if_false, ite_false]
            by_cases hic : o.insertCallsOk = true
            · simp only [hic, not_true_eq_false, if_false, ite_false]
              by_cases hsa : o.selectAgentsOk = true
              · simp only [hsa, not_true_eq_false, if_false, ite_false]
                match call.call_analysis with
                | none => simp
                | some ca => simp
              · simp [hsa]
            · simp [hic]
    · simp [hem]
  · intro hem hfalsy
    unfold handleCallUpdate
    match hcid2 : call.call_id with
    | none => simp [hev, hcall, hdv, hem, hcid2]
    | some cid =>
      rw [hcid2] at hfalsy
      simp [jsTruthy] at hfalsy
      simp [hev, hcall, hdv, hem, hcid2, hfalsy]
  · intro hem cid hcid hne hproc
    rw [handleCallUpdate_dup req call dv cid store o hev hcall hdv hcid hne hproc hem]
    exact ⟨rfl, rfl⟩

/-- C10 witness: a concrete call_analyzed request with no `call_id` still has
the e-mail send as its first (and only) effect alongside the 400 response,
and a concrete duplicate delivery still has the e-mail send first. -/
theorem email_sent_before_validation_and_dedup_witness :
    (handleCallUpdate
      ⟨some "call_analyzed",
       some ⟨none, some "agent-1", none, none,
         some ⟨some "patient-1", some "p@x.com", none⟩, none⟩⟩
      [] ⟨true, true, true, true, true⟩).effs =
      [WebhookEff.emailSend (some "p@x.com")] ∧
    (handleCallUpdate
      ⟨some "call_analyzed",
       some ⟨some "dup-1", some "agent-1", none, none,
         some ⟨some "patient-1", some "p@x.com", none⟩, none⟩⟩
      ["dup-1"] ⟨true, true, true, true, true⟩).effs =
      [WebhookEff.emailSend (some "p@x.com"), WebhookEff.dbBegin,
       WebhookEff.dbRollback] := by
  constructor
  · exact ((email_sent_before_validation_and_dedup _ _
      ⟨some "patient-1", some "p@x.com", none⟩ [] _ rfl rfl rfl).2.1 rfl (by decide)).2
  · exact ((email_sent_before_validation_and_dedup _ _
      ⟨some "patient-1", some "p@x.com", none⟩ ["dup-1"] _ rfl rfl rfl).2.2 rfl
      "dup-1" rfl (by decide) (by decide)).2

/-! ## C4 — the transfer-attempt branch -/

/-- With the transfer flag true, the transfer/callback section emits at most a
transfer-audit document creation — never a `scheduled_callbacks` insert. -/
theorem callbackEffs_transfer_cases (ca : Option CallAnalysis) (call : CallData)
    (dv : DynVars) (o : WebhookOracle)
    (htr : isTransferTrue (transferFlagOf ca) = true) :
    callbackEffs ca call dv o = [] ∨
    ∃ p, callbackEffs ca call dv o = [WebhookEff.docCreate true p] := by
  cases hpid : dv.patient_id with
  | none =>
    left
    simp [callbackEffs, hpid]
  | some pid =>
    cases hsct : (ca.bind (fun a => a.custom_analysis_data)).bind
        (fun c => c.scheduled_callback_time) with
    | none =>
      left
      simp [callbackEffs, hpid, hsct]
    | some sct =>
      have hred : callbackEffs ca call dv o = callbackCore ca call dv o pid sct := by
        simp [callbackEffs, hpid, hsct]
      rw [hred]
      by_cases hg : sct = "" ∨ pid = ""
      · left
        simp [callbackCore, hg]
      · cases hnum : agentCallbackNumberOf call with
        | none =>
          left
          simp [callbackCore, hg, hnum]
        | some num =>
          by_cases htok : tokenAvailable dv o = true
          · right
            exact ⟨pid, by simp [callbackCore, hg, hnum, htr, htok]⟩
          · left
            simp [callbackCore, hg, hnum, htr, htok]

/-- Folding the transaction machine over insert-free effects from an empty
pending list keeps the committed rows and the pending list unchanged. -/
theorem foldl_commitStep_no_insert (l : List WebhookEff) (acc : TxAcc)
    (h : ∀ e ∈ l, isInsertCb e = false) (hp : acc.pending = []) :
    (l.foldl commitStep acc).committed = acc.committed ∧
    (l.foldl commitStep acc).pending = [] := by
  induction l generalizing acc with
  | nil => exact ⟨rfl, hp⟩
  | cons e rest ih =>
    have he := h e (List.mem_cons_self e rest)
    have hrest : ∀ x ∈ rest, isInsertCb x = false :=
      fun x hx => h x (List.mem_cons_of_mem e hx)
    rw [List.foldl_cons]
    cases e with
    | dbBegin =>
      simp only [commitStep]
      exact ih _ hrest rfl
    | dbRollback =>
      simp only [commitStep]
      exact ih _ hrest rfl
    | dbCommit =>
      simp only [commitStep]
      rw [hp, List.append_nil]
      exact ih _ hrest rfl
    | insertScheduledCallback p n t ok => simp [isInsertCb] at he
    | emailSend r =>
      simp only [commitStep]
      exact ih acc hrest hp
    | insertCalls c =>
      simp only [commitStep]
      exact ih acc hrest hp
    | selectAgents a =>
      simp only [commitStep]
      exact ih acc hrest hp
    | docCreate b p =>
      simp only [commitStep]
      exact ih acc hrest hp

/-- C4 counterexample: a call_analyzed event that passes dedup with
`is_transfer_attempted = true` but no `scheduled_callback_time`: the handler
commits without creating any audit `DocumentReference` (the transfer branch is
guarded by `scheduledCallbackTime && patientId`, which this event fails), so
"transferAttempted implies an audit note is written" is false — though indeed
no `ScheduledCallback` row is inserted. -/
theorem transfer_attempt_counterexample :
    transferFlagOf (some ⟨some ⟨none, JsVal.bool true, none⟩⟩) = JsVal.bool true ∧
    (handleCallUpdate
      ⟨some "call_analyzed",
       some ⟨some "call-x", some "agent-1", some "+16018846979", none,
         some ⟨some "patient-7", some "p7@x.com", some "tok"⟩,
         some ⟨some ⟨none, JsVal.bool true, none⟩⟩⟩⟩
      [] ⟨true, true, true, true, true⟩).res = WebhookRes.okProcessed "call-x" ∧
    (handleCallUpdate
      ⟨some "call_analyzed",
       some ⟨some "call-x", some "agent-1", some "+16018846979", none,
         some ⟨some "patient-7", some "p7@x.com", some "tok"⟩,
         some ⟨some ⟨none, JsVal.bool true, none⟩⟩⟩⟩
      [] ⟨true, true, true, true, true⟩).effs =
      [WebhookEff.emailSend (some "p7@x.com"), WebhookEff.dbBegin,
       WebhookEff.insertCalls "call-x", WebhookEff.selectAgents (some "agent-1"),
       WebhookEff.dbCommit] ∧
    (∀ p, WebhookEff.docCreate true p ∉ (handleCallUpdate
      ⟨some "call_analyzed",
       some ⟨some "call-x", some "agent-1", some "+16018846979", none,
         some ⟨some "patient-7", some "p7@x.com", some "tok"⟩,
         some ⟨some ⟨none, JsVal.bool true, none⟩⟩⟩⟩
      [] ⟨true, true, true, true, true⟩).effs) := by
  have heffs : (handleCallUpdate
      ⟨some "call_analyzed",
       some ⟨some "call-x", some "agent-1", some "+16018846979", none,
         some ⟨some "patient-7", some "p7@x.com", some "tok"⟩,
         some ⟨some ⟨none, JsVal.bool true, none⟩⟩⟩⟩
      [] ⟨true, true, true, true, true⟩).effs =
      [WebhookEff.emailSend (some "p7@x.com"), WebhookEff.dbBegin,
       WebhookEff.insertCalls "call-x", WebhookEff.selectAgents (some "agent-1"),
       WebhookEff.dbCommit] := by decide
  refine ⟨rfl, by decide, heffs, ?_⟩
  intro p
  rw [heffs]
  simp

/-- C4 amended: for every call_analyzed event, if the transfer flag is true
then no `INSERT INTO scheduled_callbacks` statement is ever executed and no
row is durably inserted (the transfer branch never schedules); the audit
`DocumentReference` creation is attempted only under the section's guard —
`scheduled_callback_time` and `patient_id` truthy, an agent callback number
derivable from the call's to/from numbers — and an access token available. -/
theorem transfer_attempt_branch (req : WebhookReq) (call : CallData)
    (dv : DynVars) (ca : CallAnalysis) (store : List String) (o : WebhookOracle)
    (hev : req.event = some "call_analyzed") (hcall : req.call = some call)
    (hdv : call.retell_llm_dynamic_variables = some dv)
    (hca : call.call_analysis = some ca)
    (htr : isTransferTrue (transferFlagOf (some ca)) = true) :
    (∀ e ∈ (handleCallUpdate req store o).effs, isInsertCb e = false) ∧
    committedCallbacks (handleCallUpdate req store o).effs = [] ∧
    (∀ cid cad pid sct num, call.call_id = some cid → cid ≠ "" →
      hasBeenProcessed store cid = false →
      o.emailOk = true → o.insertCallsOk = true → o.selectAgentsOk = true →
      ca.custom_analysis_data = some cad →
      cad.scheduled_callback_time = some sct → sct ≠ "" →
      dv.patient_id = some pid → pid ≠ "" →
      agentCallbackNumberOf call = some num →
      tokenAvailable dv o = true →
      WebhookEff.docCreate true pid ∈ (handleCallUpdate req store o).effs) := by
  have hnoins : ∀ e ∈ (handleCallUpdate req store o).effs, isInsertCb e = false := by
    intro e he
    unfold handleCallUpdate at he
    simp only [hev, hcall, hdv] at he
    rw [hca] at he
    cases e with
    | emailSend r => rfl
    | dbBegin => rfl
    | dbRollback => rfl
    | dbCommit => rfl
    | insertCalls c => rfl
    | selectAgents a => rfl
    | docCreate b p => rfl
    | insertScheduledCallback p n t b =>
      exfalso
      rcases intakeEffs_cases (some ca) dv o with hi | ⟨pi, hi⟩ <;>
        rcases callbackEffs_transfer_cases (some ca) call dv o htr with hc | ⟨pc, hc⟩ <;>
        rw [hi, hc] at he
      all_goals repeat' split at he
      all_goals simp_all
  refine ⟨hnoins, ?_, ?_⟩
  · exact (foldl_commitStep_no_insert _ ⟨[], [], false⟩ hnoins rfl).1
  · intro cid cad pid sct num hcid hne hproc hem hic hsa hcad hsct hsne hpid hpne hnum htok
    rw [handleCallUpdate_fresh req call dv ca cid store o hev hcall hdv hcid hne
      hproc hem hic hsa hca]
    have hcb : callbackEffs (some ca) call dv o = [WebhookEff.docCreate true pid] := by
      simp [callbackEffs, hpid, hcad, hsct, callbackCore, hsne, hpne, hnum, htr, htok]
    rw [hcb]
    simp

/-- C4 amended witness: a concrete transfer-attempt event with the full guard
satisfied — the transfer audit document creation is attempted and no
`scheduled_callbacks` insert appears among the effects. -/
theorem transfer_attempt_branch_witness :
    WebhookEff.docCreate true "patient-7" ∈ (handleCallUpdate
      ⟨some "call_analyzed",
       some ⟨some "call-y", some "agent-1", some "+16018846979", none,
         some ⟨some "patient-7", some "p7@x.com", some "tok"⟩,
         some ⟨some ⟨none, JsVal.str "true", some "2025-03-09T10:00:00Z"⟩⟩⟩⟩
      [] ⟨true, true, true, true, true⟩).effs ∧
    committedCallbacks (handleCallUpdate
      ⟨some "call_analyzed",
       some ⟨some "call-y", some "agent-1", some "+16018846979", none,
         some ⟨some "patient-7", some "p7@x.com", some "tok"⟩,
         some ⟨some ⟨none, JsVal.str "true", some "2025-03-09T10:00:00Z"⟩⟩⟩⟩
      [] ⟨true, true, true, true, true⟩).effs = [] := by
  constructor
  · exact (transfer_attempt_branch
      ⟨some "call_analyzed",
       some ⟨some "call-y", some "agent-1", some "+16018846979", none,
         some ⟨some "patient-7", some "p7@x.com", some "tok"⟩,
         some ⟨some ⟨none, JsVal.str "true", some "2025-03-09T10:00:00Z"⟩⟩⟩⟩
      ⟨some "call-y", some "agent-1", some "+16018846979", none,
        some ⟨some "patient-7", some "p7@x.com", some "tok"⟩,
        some ⟨some ⟨none, JsVal.str "true", some "2025-03-09T10:00:00Z"⟩⟩⟩
      ⟨some "patient-7", some "p7@x.com", some "tok"⟩
      ⟨some ⟨none, JsVal.str "true", some "2025-03-09T10:00:00Z"⟩⟩
      [] ⟨true, true, true, true, true⟩ rfl rfl rfl rfl (by decide)).2.2
      "call-y" ⟨none, JsVal.str "true", some "2025-03-09T10:00:00Z"⟩ "patient-7"
      "2025-03-09T10:00:00Z" "+16018846979" rfl (by decide) (by decide) rfl rfl rfl
      rfl rfl (by decide) rfl (by decide) (by decide) (by decide)
  · exact (transfer_attempt_branch
      ⟨some "call_analyzed",
       some ⟨some "call-y", some "agent-1", some "+16018846979", none,
         some ⟨some "patient-7", some "p7@x.com", some "tok"⟩,
         some ⟨some ⟨none, JsVal.str "true", some "2025-03-09T10:00:00Z"⟩⟩⟩⟩
      ⟨some "call-y", some "agent-1", some "+16018846979", none,
        some ⟨some "patient-7", some "p7@x.com", some "tok"⟩,
        some ⟨some ⟨none, JsVal.str "true", some "2025-03-09T10:00:00Z"⟩⟩⟩
      ⟨some "patient-7", some "p7@x.com", some "tok"⟩
      ⟨some ⟨none, JsVal.str "true", some "2025-03-09T10:00:00Z"⟩⟩
      [] ⟨true, true, true, true, true⟩ rfl rfl rfl rfl (by decide)).2.1

/-! ## C2 — webhook idempotency per call id -/

/-- The effect suffix of a duplicate delivery adds no committed rows. -/
theorem committedCallbacks_append_trailer (l : List WebhookEff) (em : Option String) :
    committedCallbacks (l ++ [WebhookEff.emailSend em, WebhookEff.dbBegin,
      WebhookEff.dbRollback]) = committedCallbacks l := by
  unfold committedCallbacks
  rw [List.foldl_append]
  exact trailer_preserves_committed _ em

/-- C2: webhook processing is idempotent per call id within one process
lifetime.  If the call id is already in the dedup set, the transaction is
rolled back immediately, the "already processed" result is returned, no write
statement is executed and nothing is committed.  Submitting the same payload
a second time adds no committed `scheduled_callbacks` row, and when the first
submission takes the insertion branch (callback time and patient present,
known agent number, no transfer attempt), the two submissions together commit
exactly the one row of the first. -/
theorem webhook_idempotent (req : WebhookReq) (call : CallData) (dv : DynVars)
    (ca : CallAnalysis) (cid : String) (store : List String) (o : WebhookOracle)
    (hev : req.event = some "call_analyzed") (hcall : req.call = some call)
    (hdv : call.retell_llm_dynamic_variables = some dv)
    (hcid : call.call_id = some cid) (hne : cid ≠ "")
    (hem : o.emailOk = true) (hic : o.insertCallsOk = true)
    (hsa : o.selectAgentsOk = true) (hca : call.call_analysis = some ca) :
    (hasBeenProcessed store cid = true →
      (handleCallUpdate req store o).res = WebhookRes.okAlreadyProcessed cid ∧
      (handleCallUpdate req store o).effs =
        [WebhookEff.emailSend dv.patient_email, WebhookEff.dbBegin,
         WebhookEff.dbRollback] ∧
      (handleCallUpdate req store o).effs.filter isDbWrite = [] ∧
      committedCallbacks (handleCallUpdate req store o).effs = []) ∧
    (hasBeenProcessed store cid = false →
      committedCallbacks ((handleCallUpdate req store o).effs ++
          (handleCallUpdate req (handleCallUpdate req store o).store o).effs) =
        committedCallbacks (handleCallUpdate req store o).effs) ∧
    (hasBeenProcessed store cid = false → o.insertCallbackOk = true →
      ∀ cad pid sct num, ca.custom_analysis_data = some cad →
        cad.scheduled_callback_time = some sct → sct ≠ "" →
        dv.patient_id = some pid → pid ≠ "" →
        agentCallbackNumberOf call = some num →
        isTransferTrue (transferFlagOf (some ca)) = false →
        committedCallbacks ((handleCallUpdate req store o).effs ++
            (handleCallUpdate req (handleCallUpdate req store o).store o).effs) =
          [(pid, num, sct)]) := by
  have hdupstep : hasBeenProcessed store cid = false →
      committedCallbacks ((handleCallUpdate req store o).effs ++
          (handleCallUpdate req (handleCallUpdate req store o).store o).effs) =
        committedCallbacks (handleCallUpdate req store o).effs := by
    intro hproc
    have h1eq := handleCallUpdate_fresh req call dv ca cid store o hev hcall hdv
      hcid hne hproc hem hic hsa hca
    have hstore : (handleCallUpdate req store o).store = cid :: store := by
      rw [h1eq]
    have hdup : hasBeenProcessed (cid :: store) cid = true := by
      simp [hasBeenProcessed]
    have h2eq : handleCallUpdate req (handleCallUpdate req store o).store o =
        ⟨WebhookRes.okAlreadyProcessed cid,
         [WebhookEff.emailSend dv.patient_email, WebhookEff.dbBegin,
          WebhookEff.dbRollback],
         cid :: store⟩ := by
      rw [hstore]
      exact handleCallUpdate_dup req call dv cid (cid :: store) o hev hcall hdv
        hcid hne hdup hem
    rw [h2eq]
    exact committedCallbacks_append_trailer _ _
  refine ⟨?_, hdupstep, ?_⟩
  · intro hproc
    rw [handleCallUpdate_dup req call dv cid store o hev hcall hdv hcid hne hproc hem]
    refine ⟨rfl, rfl, rfl, ?_⟩
    simp [committedCallbacks, commitStep]
  · intro hproc hicb cad pid sct num hcad hsct hsne hpid hpne hnum htrf
    rw [hdupstep hproc]
    have h1eq := handleCallUpdate_fresh req call dv ca cid store o hev hcall hdv
      hcid hne hproc hem hic hsa hca
    have heffs : (handleCallUpdate req store o).effs =
        WebhookEff.emailSend dv.patient_email :: WebhookEff.dbBegin ::
          WebhookEff.insertCalls cid :: WebhookEff.selectAgents call.agent_id ::
          (intakeEffs (some ca) dv o ++ callbackEffs (some ca) call dv o ++
           [WebhookEff.dbCommit]) := by
      rw [h1eq]
    rw [heffs]
    have hcb : callbackEffs (some ca) call dv o =
        [WebhookEff.insertScheduledCallback pid num sct true] := by
      simp [callbackEffs, hpid, hcad, hsct, callbackCore, hsne, hpne, hnum,
        htrf, hicb]
    rw [hcb]
    unfold committedCallbacks
    simp only [List.foldl_cons, List.foldl_append, commitStep]
    rw [foldl_commitStep_neutral (intakeEffs (some ca) dv o) ⟨[], [], true⟩
      (intakeEffs_neutral (some ca) dv o)]
    simp [commitStep]

/-- C2 witness: the same concrete insertion-branch payload submitted twice
(fresh process state) commits exactly one `scheduled_callbacks` row; the
duplicate path at an already-seen id produces only e-mail, `BEGIN`,
`ROLLBACK`. -/
theorem webhook_idempotent_witness :
    committedCallbacks ((handleCallUpdate
        ⟨some "call_analyzed",
         some ⟨some "call-001", some "agent-1", some "+16018846979",
           some "+15550001111",
           some ⟨some "patient-1", some "p@x.com", some "tok"⟩,
           some ⟨some ⟨none, JsVal.bool false, some "2025-03-09T10:00:00Z"⟩⟩⟩⟩
        [] ⟨true, true, true, true, true⟩).effs ++
      (handleCallUpdate
        ⟨some "call_analyzed",
         some ⟨some "call-001", some "agent-1", some "+16018846979",
           some "+15550001111",
           some ⟨some "patient-1", some "p@x.com", some "tok"⟩,
           some ⟨some ⟨none, JsVal.bool false, some "2025-03-09T10:00:00Z"⟩⟩⟩⟩
        (handleCallUpdate
          ⟨some "call_analyzed",
           some ⟨some "call-001", some "agent-1", some "+16018846979",
             some "+15550001111",
             some ⟨some "patient-1", some "p@x.com", some "tok"⟩,
             some ⟨some ⟨none, JsVal.bool false, some "2025-03-09T10:00:00Z"⟩⟩⟩⟩
          [] ⟨true, true, true, true, true⟩).store
        ⟨true, true, true, true, true⟩).effs) =
      [("patient-1", "+16018846979", "2025-03-09T10:00:00Z")] :=
  (webhook_idempotent
    ⟨some "call_analyzed",
     some ⟨some "call-001", some "agent-1", some "+16018846979",
       some "+15550001111",
       some ⟨some "patient-1", some "p@x.com", some "tok"⟩,
       some ⟨some ⟨none, JsVal.bool false, some "2025-03-09T10:00:00Z"⟩⟩⟩⟩
    ⟨some "call-001", some "agent-1", some "+16018846979", some "+15550001111",
      some ⟨some "patient-1", some "p@x.com", some "tok"⟩,
      some ⟨some ⟨none, JsVal.bool false, some "2025-03-09T10:00:00Z"⟩⟩⟩
    ⟨some "patient-1", some "p@x.com", some "tok"⟩
    ⟨some ⟨none, JsVal.bool false, some "2025-03-09T10:00:00Z"⟩⟩
    "call-001" [] ⟨true, true, true, true, true⟩
    rfl rfl rfl rfl (by decide) rfl rfl rfl rfl).2.2 rfl rfl
    ⟨none, JsVal.bool false, some "2025-03-09T10:00:00Z"⟩ "patient-1"
    "2025-03-09T10:00:00Z" "+16018846979" rfl rfl (by decide) rfl (by decide)
    (by decide) (by decide)
